import Mathlib

/-!
Verification of the housing-listing filter and amenity-scoring core.

The definitions below are a shallow embedding of the two source files:
`app.py` (condition evaluation, haversine distance, listing filter pipeline)
and `rate_house.py` (POI classification and livability scoring).
Python floats are embedded as exact reals where transcendental functions
appear (`haversine`) and as rationals elsewhere; Python's dynamic values
for condition strings are embedded as an explicit sum type.
-/

/-- `math.radians`: degrees to radians. -/
noncomputable def radians (x : ℝ) : ℝ := x * Real.pi / 180

/-- `math.atan2 y x`: the two-argument arctangent, by quadrant. -/
noncomputable def atan2 (y x : ℝ) : ℝ :=
  if 0 < x then Real.arctan (y / x)
  else if x < 0 then
    (if 0 ≤ y then Real.arctan (y / x) + Real.pi else Real.arctan (y / x) - Real.pi)
  else
    (if 0 < y then Real.pi / 2 else if y < 0 then -(Real.pi / 2) else 0)

/-- The intermediate value `a` of `haversine` in `app.py`:
`sin(dlat/2)**2 + cos(lat1_rad) * cos(lat2_rad) * sin(dlon/2)**2`. -/
noncomputable def hav_a (lat1 lon1 lat2 lon2 : ℝ) : ℝ :=
  Real.sin ((radians lat2 - radians lat1) / 2) ^ 2 +
    Real.cos (radians lat1) * Real.cos (radians lat2) *
      Real.sin ((radians lon2 - radians lon1) / 2) ^ 2

/-- `haversine` from `app.py`: great-circle distance in kilometres with
Earth radius 6371.0, via `c = 2 * atan2(sqrt(a), sqrt(1 - a))` and `R * c`. -/
noncomputable def haversine (lat1 lon1 lat2 lon2 : ℝ) : ℝ :=
  6371.0 * (2 * atan2 (Real.sqrt (hav_a lat1 lon1 lat2 lon2))
                      (Real.sqrt (1 - hav_a lat1 lon1 lat2 lon2)))

lemma sin_half_sub_sq (x y : ℝ) :
    Real.sin ((x - y) / 2) ^ 2 = Real.sin ((y - x) / 2) ^ 2 := by
  rw [show (x - y) / 2 = -((y - x) / 2) by ring, Real.sin_neg]
  ring

lemma hav_a_symm (lat1 lon1 lat2 lon2 : ℝ) :
    hav_a lat1 lon1 lat2 lon2 = hav_a lat2 lon2 lat1 lon1 := by
  unfold hav_a
  rw [sin_half_sub_sq (radians lat2) (radians lat1),
      sin_half_sub_sq (radians lon2) (radians lon1),
      mul_comm (Real.cos (radians lat1)) (Real.cos (radians lat2))]

/-- C8: GeoDistance (`haversine`) is a pure function of its four inputs and is
symmetric: swapping the two coordinate pairs leaves the distance unchanged,
exactly, in the exact-arithmetic embedding of the formula. -/
theorem haversine_symmetric (lat1 lon1 lat2 lon2 : ℝ) :
    haversine lat1 lon1 lat2 lon2 = haversine lat2 lon2 lat1 lon1 := by
  unfold haversine
  rw [hav_a_symm]

/-! ## Condition strings (`evaluate_sql_condition` in `app.py`) -/

/-- A Python value passed as the condition argument: `None`, a string, or a
non-string value (for which `isinstance(condition_str, str)` is false). -/
inductive PyStr where
  | pynone : PyStr
  | pystr : String → PyStr
  | nonstring : PyStr
deriving DecidableEq

/-- The regex class `\w` (ASCII reading): letters, digits, underscore. -/
def isWordChar (c : Char) : Bool := c.isAlphanum || c = '_'

/-- The regex class `\s`: Python whitespace characters. -/
def isSpaceChar (c : Char) : Bool :=
  c = ' ' || c = '\t' || c = '\n' || c = '\r' || c = '\x0b' || c = '\x0c'

/-- The regex class `[<>=!]`. -/
def isOpChar (c : Char) : Bool := c = '<' || c = '>' || c = '=' || c = '!'

/-- The regex class `[\d\.]`. -/
def isNumChar (c : Char) : Bool := c.isDigit || c = '.'

/-- `str.replace`, fuelled for structural recursion (the fuel is the length
of the scanned list, so it never runs out): left-to-right, non-overlapping
replacement of the pattern `p :: ps` by `rep`; scanning resumes after the
replaced text. -/
def listReplaceF (p : Char) (ps rep : List Char) : ℕ → List Char → List Char
  | 0, l => l
  | _ + 1, [] => []
  | fuel + 1, c :: rest =>
    if c = p ∧ rest.take ps.length = ps then
      rep ++ listReplaceF p ps rep fuel (rest.drop ps.length)
    else
      c :: listReplaceF p ps rep fuel rest

/-- `str.replace` of the pattern `p :: ps` by `rep`. -/
def listReplace (p : Char) (ps rep l : List Char) : List Char :=
  listReplaceF p ps rep l.length l

/-- `condition_str.replace("price", "value").replace("age", "value")
.replace("size", "value")` from `app.py`. -/
def replacedChain (s : List Char) : List Char :=
  listReplace 's' ['i', 'z', 'e'] juxt
    (listReplace 'a' ['g', 'e'] juxt
      (listReplace 'p' ['r', 'i', 'c', 'e'] juxt s))
where juxt : List Char := ['v', 'a', 'l', 'u', 'e']

/-- The part of the regex after `^\w+`: `\s*([<>=!]+)\s*([\d\.]+)$`, with
`$` also matching just before one trailing newline (Python semantics).
Returns the two captured groups. -/
def parseRest (r1 : List Char) : Option (List Char × List Char) :=
  let r2 := r1.dropWhile isSpaceChar
  let op := r2.takeWhile isOpChar
  let r3 := r2.dropWhile isOpChar
  if op.isEmpty then none
  else
    let r4 := r3.dropWhile isSpaceChar
    let num := r4.takeWhile isNumChar
    let r5 := r4.dropWhile isNumChar
    if num.isEmpty then none
    else if r5 = [] ∨ r5 = ['\n'] then some (op, num) else none

/-- `re.match(r'^\w+\s*([<>=!]+)\s*([\d\.]+)$', s)`: the adjacent character
classes are pairwise disjoint at every boundary, so greedy matching with
backtracking coincides with this maximal-munch scan. -/
def parseCondition (s : List Char) : Option (List Char × List Char) :=
  let w := s.takeWhile isWordChar
  if w.isEmpty then none else parseRest (s.dropWhile isWordChar)

/-- Digit run to a natural number (most significant first). -/
def digitsVal (l : List Char) : ℕ := l.foldl (fun a c => 10 * a + (c.toNat - 48)) 0

/-- Python `float()` restricted to strings over `[\d\.]`: fails on more than
one dot or on a string with no digit, otherwise integer part plus fraction. -/
def pyFloat (l : List Char) : Option ℚ :=
  if ¬ l.all isNumChar then none
  else if 2 ≤ l.count '.' then none
  else if l.all (fun c => c = '.') then none
  else
    let ip := l.takeWhile (fun c => c ≠ '.')
    let fp := (l.dropWhile (fun c => c ≠ '.')).tail
    some ((digitsVal ip : ℚ) + (digitsVal fp : ℚ) / (10 : ℚ) ^ fp.length)

/-- `evaluate_sql_condition` from `app.py`: `None`, the empty string and
non-strings are unconstrained; otherwise the field names are rewritten to
`value`, the string is matched against the pattern, the captured threshold
is parsed, and the captured operator selects one of the six comparisons;
every failure along the way (and any unknown operator) yields `true`. -/
def evaluate_sql_condition (value : ℚ) (condition_str : PyStr) : Bool :=
  match condition_str with
  | .pynone => true
  | .nonstring => true
  | .pystr s =>
    if s = "" then true
    else
      match parseCondition (replacedChain s.toList) with
      | none => true
      | some (op, num) =>
        match pyFloat num with
        | none => true
        | some cv =>
          if op = ['<', '='] then decide (value ≤ cv)
          else if op = ['>', '='] then decide (value ≥ cv)
          else if op = ['<'] then decide (value < cv)
          else if op = ['>'] then decide (value > cv)
          else if op = ['='] then decide (value = cv)
          else if op = ['!', '='] then decide (value ≠ cv)
          else true

lemma takeWhile_append_all {p : Char → Bool} {w : List Char} (t : List Char)
    (hw : w.all p = true) : (w ++ t).takeWhile p = w ++ t.takeWhile p := by
  induction w with
  | nil => simp
  | cons c cs ih =>
    simp only [List.all_cons, Bool.and_eq_true] at hw
    simp [List.takeWhile_cons, hw.1, ih hw.2]

lemma dropWhile_append_all {p : Char → Bool} {w : List Char} (t : List Char)
    (hw : w.all p = true) : (w ++ t).dropWhile p = t.dropWhile p := by
  induction w with
  | nil => simp
  | cons c cs ih =>
    simp only [List.all_cons, Bool.and_eq_true] at hw
    simp [List.dropWhile_cons, hw.1, ih hw.2]

lemma parseCondition_word_prefix {w : List Char} (t : List Char) (hw : w ≠ [])
    (hall : w.all isWordChar = true) :
    parseCondition (w ++ t) = parseRest (t.dropWhile isWordChar) := by
  unfold parseCondition
  rw [takeWhile_append_all t hall, dropWhile_append_all t hall]
  simp [List.isEmpty_iff, hw]

lemma parseCondition_nil : parseCondition (replacedChain "".toList) = none := rfl

/-- C4: ConditionExpression is permissive: for every value, an absent, empty
or non-string condition returns true; a condition string the pattern does not
match returns true; and a parse-time failure of the numeric threshold (the
only exception source in the embedding, caught by the bare `except`) also
returns true — nothing propagates past the boundary. -/
theorem C4_condition_permissive (v : ℚ) (s : String) :
    evaluate_sql_condition v .pynone = true ∧
    evaluate_sql_condition v .nonstring = true ∧
    evaluate_sql_condition v (.pystr "") = true ∧
    (parseCondition (replacedChain s.toList) = none →
      evaluate_sql_condition v (.pystr s) = true) ∧
    (∀ op num, parseCondition (replacedChain s.toList) = some (op, num) →
      pyFloat num = none → evaluate_sql_condition v (.pystr s) = true) := by
  refine ⟨rfl, rfl, rfl, ?_, ?_⟩
  · intro h
    by_cases hs : s = ""
    · subst hs; rfl
    · have hd : parseCondition (replacedChain s.data) = none := h
      simp [evaluate_sql_condition, hs, hd]
  · intro op num hp hf
    by_cases hs : s = ""
    · subst hs; rfl
    · have hd : parseCondition (replacedChain s.data) = some (op, num) := hp
      simp [evaluate_sql_condition, hs, hd, hf]

theorem C4_witness : evaluate_sql_condition 7 (.pystr "price ~~ 100") = true :=
  (C4_condition_permissive 7 "price ~~ 100").2.2.2.1 (by decide)

/-- C5: when the condition string matches the pattern and the threshold
parses, each of the six supported operators makes ConditionExpression return
exactly the corresponding comparison of the value against the threshold. -/
theorem C5_condition_comparisons (v t : ℚ) (s : String) (op num : List Char)
    (hp : parseCondition (replacedChain s.toList) = some (op, num))
    (hf : pyFloat num = some t) :
    (op = ['<', '='] → evaluate_sql_condition v (.pystr s) = decide (v ≤ t)) ∧
    (op = ['>', '='] → evaluate_sql_condition v (.pystr s) = decide (v ≥ t)) ∧
    (op = ['<'] → evaluate_sql_condition v (.pystr s) = decide (v < t)) ∧
    (op = ['>'] → evaluate_sql_condition v (.pystr s) = decide (v > t)) ∧
    (op = ['='] → evaluate_sql_condition v (.pystr s) = decide (v = t)) ∧
    (op = ['!', '='] → evaluate_sql_condition v (.pystr s) = decide (v ≠ t)) := by
  have hs : s ≠ "" := by
    intro h; subst h
    rw [parseCondition_nil] at hp
    exact Option.noConfusion hp
  have hd : parseCondition (replacedChain s.data) = some (op, num) := hp
  refine ⟨?_, ?_, ?_, ?_, ?_, ?_⟩ <;> intro ho <;> subst ho <;>
    simp [evaluate_sql_condition, hs, hd, hf]

lemma pyFloat_one_hundred : pyFloat ['1', '0', '0'] = some 100 := by
  simp only [pyFloat, digitsVal]
  norm_num [isNumChar, List.count_cons, List.takeWhile, List.dropWhile, List.foldl]
  refine ⟨by decide, by decide, by decide, ?_⟩
  norm_num [show '1'.toNat - 48 = 1 from by decide, show '0'.toNat - 48 = 0 from by decide]

theorem C5_witness :
    evaluate_sql_condition 100 (.pystr "price <= 100") = true ∧
    evaluate_sql_condition 101 (.pystr "price <= 100") = false := by
  constructor
  · have h := (C5_condition_comparisons 100 100 "price <= 100" ['<', '='] ['1', '0', '0']
      (by decide) pyFloat_one_hundred).1 rfl
    rw [h]; decide
  · have h := (C5_condition_comparisons 101 100 "price <= 100" ['<', '='] ['1', '0', '0']
      (by decide) pyFloat_one_hundred).1 rfl
    rw [h]; decide

/-- C9: the result of ConditionExpression is independent of the identifier:
two condition strings whose field-name-normalized forms differ only in their
leading word-character identifier evaluate identically at every value — the
engine never checks that the identifier names the field being filtered. -/
theorem C9_identifier_irrelevant (v : ℚ) (s1 s2 : String) (w1 w2 t : List Char)
    (h1 : replacedChain s1.toList = w1 ++ t) (h2 : replacedChain s2.toList = w2 ++ t)
    (hw1 : w1 ≠ []) (hw2 : w2 ≠ [])
    (ha1 : w1.all isWordChar = true) (ha2 : w2.all isWordChar = true) :
    evaluate_sql_condition v (.pystr s1) = evaluate_sql_condition v (.pystr s2) := by
  have hs1 : s1 ≠ "" := by
    intro h; subst h
    rw [show replacedChain "".toList = [] from rfl] at h1
    exact hw1 (List.append_eq_nil.mp h1.symm).1
  have hs2 : s2 ≠ "" := by
    intro h; subst h
    rw [show replacedChain "".toList = [] from rfl] at h2
    exact hw2 (List.append_eq_nil.mp h2.symm).1
  simp only [evaluate_sql_condition]
  rw [if_neg hs1, if_neg hs2, h1, h2,
      parseCondition_word_prefix t hw1 ha1, parseCondition_word_prefix t hw2 ha2]

theorem C9_witness :
    evaluate_sql_condition 100 (.pystr "age <= 100") =
      evaluate_sql_condition 100 (.pystr "foo <= 100") :=
  C9_identifier_irrelevant 100 "age <= 100" "foo <= 100"
    ['v', 'a', 'l', 'u', 'e'] ['f', 'o', 'o'] " <= 100".toList
    (by decide) (by decide) (by decide) (by decide) (by decide) (by decide)

/-- C10: a condition string that matches the parse pattern with an operator
token made of `<>=!` characters but different from the six supported
operators falls through every operator branch to the permissive default:
ConditionExpression returns true at every value. -/
theorem C10_unknown_op_permissive (v : ℚ) (s : String) (op num : List Char)
    (hp : parseCondition (replacedChain s.toList) = some (op, num))
    (h1 : op ≠ ['<', '=']) (h2 : op ≠ ['>', '=']) (h3 : op ≠ ['<'])
    (h4 : op ≠ ['>']) (h5 : op ≠ ['=']) (h6 : op ≠ ['!', '=']) :
    evaluate_sql_condition v (.pystr s) = true := by
  have hs : s ≠ "" := by
    intro h; subst h
    rw [parseCondition_nil] at hp
    exact Option.noConfusion hp
  have hd : parseCondition (replacedChain s.data) = some (op, num) := hp
  cases hf : pyFloat num with
  | none => simp [evaluate_sql_condition, hs, hd, hf]
  | some cv => simp [evaluate_sql_condition, hs, hd, hf, h1, h2, h3, h4, h5, h6]

theorem C10_witness :
    evaluate_sql_condition 5 (.pystr "price == 100") = true ∧
    evaluate_sql_condition 5 (.pystr "price <> 100") = true ∧
    evaluate_sql_condition 5 (.pystr "price => 100") = true := by
  refine ⟨?_, ?_, ?_⟩
  · exact C10_unknown_op_permissive 5 "price == 100" ['=', '='] ['1', '0', '0']
      (by decide) (by decide) (by decide) (by decide) (by decide) (by decide) (by decide)
  · exact C10_unknown_op_permissive 5 "price <> 100" ['<', '>'] ['1', '0', '0']
      (by decide) (by decide) (by decide) (by decide) (by decide) (by decide) (by decide)
  · exact C10_unknown_op_permissive 5 "price => 100" ['=', '>'] ['1', '0', '0']
      (by decide) (by decide) (by decide) (by decide) (by decide) (by decide) (by decide)

/-! ## Listing filter pipeline (`filter_houses` in `app.py`) -/

/-- A housing Listing, restricted to the fields `filter_houses` reads. -/
structure House where
  latitude : ℚ
  longitude : ℚ
  price : ℚ
  age : ℚ
  size : ℚ
  label : List String
deriving DecidableEq

/-- The SearchCriteria dict produced by the AI translator: every field may be
null (`none` / `pynone`); condition fields may also be non-string values. -/
structure Criteria where
  location : Option (ℚ × ℚ)
  distance : Option ℚ
  price : PyStr
  age : PyStr
  size : PyStr
  labels_to_exclude : Option (List String)
  labels_to_include : Option (List String)
deriving DecidableEq

/-- Python truthiness of a condition field: `None` and the empty string are
falsy; a non-empty string is truthy (a truthy non-string is equivalent to an
identity filter stage because `evaluate_sql_condition` returns true on it). -/
def truthyStr : PyStr → Bool
  | .pynone => false
  | .pystr s => s ≠ ""
  | .nonstring => true

/-- Stage 1 of `filter_houses`: `if criteria.get('location') and
criteria.get('distance')` — both fields must be truthy (a radius of 0 is
falsy), then listings farther than the radius are dropped. -/
noncomputable def geo_stage (criteria : Criteria) (houses : List House) : List House :=
  match criteria.location, criteria.distance with
  | some (center_lat, center_lon), some max_dist =>
    if max_dist ≠ 0 then
      houses.filter (fun h =>
        decide (haversine center_lat center_lon h.latitude h.longitude ≤ (max_dist : ℝ)))
    else houses
  | _, _ => houses

/-- Stage 2 of `filter_houses`: the price condition, when truthy. -/
def price_stage (criteria : Criteria) (houses : List House) : List House :=
  if truthyStr criteria.price then
    houses.filter (fun h => evaluate_sql_condition h.price criteria.price)
  else houses

/-- Stage 3a of `filter_houses`: the age condition, when truthy. -/
def age_stage (criteria : Criteria) (houses : List House) : List House :=
  if truthyStr criteria.age then
    houses.filter (fun h => evaluate_sql_condition h.age criteria.age)
  else houses

/-- Stage 3b of `filter_houses`: the size condition, when truthy. -/
def size_stage (criteria : Criteria) (houses : List House) : List House :=
  if truthyStr criteria.size then
    houses.filter (fun h => evaluate_sql_condition h.size criteria.size)
  else houses

/-- Stage 4 of `filter_houses`: drop listings whose label set intersects the
exclusion set, when that set is present and non-empty (Python truthiness). -/
def exclude_stage (criteria : Criteria) (houses : List House) : List House :=
  match criteria.labels_to_exclude with
  | some exclude_labels =>
    if exclude_labels.isEmpty then houses
    else houses.filter (fun h => !(exclude_labels.any (fun l => h.label.contains l)))
  | none => houses

/-- Stage 5 of `filter_houses`: keep listings whose label set contains every
required label, when the inclusion set is present and non-empty. -/
def include_stage (criteria : Criteria) (houses : List House) : List House :=
  match criteria.labels_to_include with
  | some include_labels =>
    if include_labels.isEmpty then houses
    else houses.filter (fun h => include_labels.all (fun l => h.label.contains l))
  | none => houses

/-- `filter_houses` from `app.py`: an empty collection short-circuits to `[]`;
otherwise the five filter stages run in order and the result is truncated to
the first 10 entries (`filtered[:10]`). -/
noncomputable def filter_houses (houses : List House) (criteria : Criteria) : List House :=
  if houses.isEmpty then []
  else
    (include_stage criteria
      (exclude_stage criteria
        (size_stage criteria
          (age_stage criteria
            (price_stage criteria
              (geo_stage criteria houses)))))).take 10

/-- The SearchCriteria with every field absent. -/
def emptyCriteria : Criteria :=
  ⟨none, none, .pynone, .pynone, .pynone, none, none⟩

lemma geo_stage_sublist (c : Criteria) (hs : List House) :
    (geo_stage c hs).Sublist hs := by
  unfold geo_stage
  split
  · split
    · exact List.filter_sublist _
    · exact List.Sublist.refl _
  · exact List.Sublist.refl _

lemma price_stage_sublist (c : Criteria) (hs : List House) :
    (price_stage c hs).Sublist hs := by
  unfold price_stage
  split
  · exact List.filter_sublist _
  · exact List.Sublist.refl _

lemma age_stage_sublist (c : Criteria) (hs : List House) :
    (age_stage c hs).Sublist hs := by
  unfold age_stage
  split
  · exact List.filter_sublist _
  · exact List.Sublist.refl _

lemma size_stage_sublist (c : Criteria) (hs : List House) :
    (size_stage c hs).Sublist hs := by
  unfold size_stage
  split
  · exact List.filter_sublist _
  · exact List.Sublist.refl _

lemma exclude_stage_sublist (c : Criteria) (hs : List House) :
    (exclude_stage c hs).Sublist hs := by
  unfold exclude_stage
  split
  · split
    · exact List.Sublist.refl _
    · exact List.filter_sublist _
  · exact List.Sublist.refl _

lemma include_stage_sublist (c : Criteria) (hs : List House) :
    (include_stage c hs).Sublist hs := by
  unfold include_stage
  split
  · split
    · exact List.Sublist.refl _
    · exact List.filter_sublist _
  · exact List.Sublist.refl _

lemma pipeline_sublist (c : Criteria) (hs : List House) :
    (include_stage c (exclude_stage c (size_stage c (age_stage c
      (price_stage c (geo_stage c hs)))))).Sublist hs :=
  ((include_stage_sublist c _).trans ((exclude_stage_sublist c _).trans
    ((size_stage_sublist c _).trans ((age_stage_sublist c _).trans
      ((price_stage_sublist c _).trans (geo_stage_sublist c hs))))))

/-- C3: `filter_houses` returns the first 10 entries of the filtered
collection: the result is the 10-truncation of the five-stage pipeline, has
at most 10 entries, and is a sublist of the input (original relative order,
no reordering); with every criteria field absent it is exactly the first 10
listings, and an empty collection gives an empty result for any criteria. -/
theorem C3_first_ten (houses : List House) (criteria : Criteria) :
    filter_houses houses criteria =
      (include_stage criteria (exclude_stage criteria (size_stage criteria
        (age_stage criteria (price_stage criteria
          (geo_stage criteria houses)))))).take 10 ∧
    (filter_houses houses criteria).length ≤ 10 ∧
    (filter_houses houses criteria).Sublist houses ∧
    filter_houses houses emptyCriteria = houses.take 10 ∧
    filter_houses [] criteria = [] := by
  have hmain : filter_houses houses criteria =
      (include_stage criteria (exclude_stage criteria (size_stage criteria
        (age_stage criteria (price_stage criteria
          (geo_stage criteria houses)))))).take 10 := by
    cases houses with
    | nil =>
      have hnil : (include_stage criteria (exclude_stage criteria (size_stage criteria
          (age_stage criteria (price_stage criteria
            (geo_stage criteria ([] : List House))))))).Sublist [] :=
        pipeline_sublist criteria []
      rw [List.sublist_nil.mp hnil]
      rfl
    | cons a l => rfl
  refine ⟨hmain, ?_, ?_, ?_, rfl⟩
  · rw [hmain, List.length_take]
    exact min_le_left _ _
  · rw [hmain]
    exact (List.take_sublist _ _).trans (pipeline_sublist criteria houses)
  · cases houses <;> rfl

/-- C7: with a present, non-empty `labels_to_exclude`, the exclusion stage
keeps exactly the listings whose label set does not meet the exclusion set
(any overlap disqualifies); with a present, non-empty `labels_to_include`,
the inclusion stage keeps exactly the listings whose label set contains
every required label (partial overlap is rejected). -/
theorem C7_label_filters (criteria : Criteria) (houses : List House) (x : House) :
    (∀ ex, criteria.labels_to_exclude = some ex → ex ≠ [] →
      (x ∈ exclude_stage criteria houses ↔
        x ∈ houses ∧ ∀ l ∈ ex, l ∉ x.label)) ∧
    (∀ inc, criteria.labels_to_include = some inc → inc ≠ [] →
      (x ∈ include_stage criteria houses ↔
        x ∈ houses ∧ ∀ l ∈ inc, l ∈ x.label)) := by
  constructor
  · intro ex hex hne
    simp [exclude_stage, hex, List.isEmpty_iff, hne, List.mem_filter]
  · intro inc hinc hne
    simp [include_stage, hinc, List.isEmpty_iff, hne, List.mem_filter]

theorem C7_witness :
    (House.mk 0 0 0 0 0 ["temple", "park"] ∈
        exclude_stage (Criteria.mk none none .pynone .pynone .pynone (some ["temple"]) none)
          [House.mk 0 0 0 0 0 ["temple", "park"]] ↔
      House.mk 0 0 0 0 0 ["temple", "park"] ∈ [House.mk 0 0 0 0 0 ["temple", "park"]] ∧
        ∀ l ∈ ["temple"], l ∉ (House.mk 0 0 0 0 0 ["temple", "park"]).label) ∧
    (House.mk 0 0 0 0 0 ["hospital"] ∈
        include_stage (Criteria.mk none none .pynone .pynone .pynone none
            (some ["hospital", "MRT station"]))
          [House.mk 0 0 0 0 0 ["hospital"]] ↔
      House.mk 0 0 0 0 0 ["hospital"] ∈ [House.mk 0 0 0 0 0 ["hospital"]] ∧
        ∀ l ∈ ["hospital", "MRT station"], l ∈ (House.mk 0 0 0 0 0 ["hospital"]).label) :=
  ⟨(C7_label_filters _ _ _).1 ["temple"] rfl (by decide),
   (C7_label_filters _ _ _).2 ["hospital", "MRT station"] rfl (by decide)⟩

/-- C1 (amended): the geographic stage runs only when both fields are truthy:
if the center is absent, the radius absent, or the radius equal to 0 (falsy
in Python), the stage is the identity; when both are present and the radius
is nonzero, it retains exactly the listings whose haversine distance to the
center is at most the radius. -/
theorem C1_geo_stage_gating (criteria : Criteria) (houses : List House) :
    ((criteria.location = none ∨ criteria.distance = none ∨
        criteria.distance = some 0) →
      geo_stage criteria houses = houses) ∧
    (∀ clat clon d (x : House), criteria.location = some (clat, clon) →
      criteria.distance = some d → d ≠ 0 →
      (x ∈ geo_stage criteria houses ↔
        x ∈ houses ∧
          haversine clat clon x.latitude x.longitude ≤ (d : ℝ))) := by
  constructor
  · intro h
    unfold geo_stage
    rcases h with h | h | h
    · rw [h]
    · rw [h]
      cases hl : criteria.location with
      | none => rfl
      | some c => obtain ⟨a, b⟩ := c; rfl
    · rw [h]
      cases hl : criteria.location with
      | none => rfl
      | some c => obtain ⟨a, b⟩ := c; simp
  · intro clat clon d x hl hd hdnz
    unfold geo_stage
    rw [hl, hd]
    simp [hdnz, List.mem_filter]

def house_origin : House := House.mk 0 0 0 0 0 []

def house_pole : House := House.mk 90 0 0 0 0 []

/-- Criteria with a present center and a radius of exactly 0. -/
def criteria_radius0 : Criteria :=
  Criteria.mk (some (0, 0)) (some 0) .pynone .pynone .pynone none none

lemma radians_zero : radians 0 = 0 := by simp [radians]

lemma radians_ninety : radians 90 = Real.pi / 2 := by unfold radians; ring

lemma hav_a_pole : hav_a 0 0 90 0 = 1 / 2 := by
  unfold hav_a
  rw [radians_zero, radians_ninety]
  rw [show (Real.pi / 2 - 0) / 2 = Real.pi / 4 by ring,
      show ((0 : ℝ) - 0) / 2 = 0 by ring]
  rw [Real.sin_pi_div_four, Real.cos_pi_div_two, Real.sin_zero]
  rw [show ((Real.sqrt 2 / 2) ^ 2 : ℝ) = Real.sqrt 2 ^ 2 / 4 by ring,
      Real.sq_sqrt (by norm_num : (0 : ℝ) ≤ 2)]
  ring

lemma haversine_pole_pos : 0 < haversine 0 0 90 0 := by
  unfold haversine
  rw [hav_a_pole, show (1 : ℝ) - 1 / 2 = 1 / 2 by norm_num]
  have hx : 0 < Real.sqrt (1 / 2) := Real.sqrt_pos.mpr (by norm_num)
  unfold atan2
  rw [if_pos hx, div_self (ne_of_gt hx), Real.arctan_one]
  positivity

/-- C1 counterexample: with a present center and a radius of exactly 0, the
geographic stage is skipped, so a listing at strictly positive GeoDistance
from the center (here the pole, at distance 6371·π/2 km) still survives —
against the claim that with radius 0 only listings at distance 0 survive. -/
theorem C1_radius_zero_counterexample :
    filter_houses [house_origin, house_pole] criteria_radius0 =
      [house_origin, house_pole] ∧
    0 < haversine 0 0 ((house_pole.latitude : ℚ) : ℝ) ((house_pole.longitude : ℚ) : ℝ) := by
  constructor
  · rfl
  · have h1 : ((house_pole.latitude : ℚ) : ℝ) = 90 := by norm_num [house_pole]
    have h2 : ((house_pole.longitude : ℚ) : ℝ) = 0 := by norm_num [house_pole]
    rw [h1, h2]
    exact haversine_pole_pos

theorem C1_gating_witness :
    geo_stage criteria_radius0 [house_origin, house_pole] = [house_origin, house_pole] ∧
    (house_origin ∈
        geo_stage (Criteria.mk (some (0, 0)) (some 5) .pynone .pynone .pynone none none)
          [house_origin] ↔
      house_origin ∈ [house_origin] ∧
        haversine ((0 : ℚ) : ℝ) ((0 : ℚ) : ℝ) ((house_origin.latitude : ℚ) : ℝ)
            ((house_origin.longitude : ℚ) : ℝ) ≤ ((5 : ℚ) : ℝ)) :=
  ⟨(C1_geo_stage_gating criteria_radius0 [house_origin, house_pole]).1
      (Or.inr (Or.inr rfl)),
   (C1_geo_stage_gating _ [house_origin]).2 0 0 5 house_origin rfl rfl (by norm_num)⟩

/-! ## Amenity classification and scoring (`rate_house.py`) -/

/-- `tags.get(k)` on a Python dict, as an association-list lookup. -/
def tagsGet (tags : List (String × String)) (k : String) : Option String :=
  (tags.find? (fun p => p.1 = k)).map Prod.snd

/-- Whether the first list is an initial segment of the second. -/
def leadsWith : List Char → List Char → Bool
  | [], _ => true
  | _ :: _, [] => false
  | a :: as, b :: bs => a = b && leadsWith as bs

/-- Whether `sub` occurs contiguously anywhere in the second list. -/
def containsSub (sub : List Char) : List Char → Bool
  | [] => leadsWith sub []
  | c :: rest => leadsWith sub (c :: rest) || containsSub sub rest

/-- Python `sub in s` on strings: contiguous substring containment. -/
def pyIn (sub s : String) : Bool := containsSub sub.toList s.toList

/-- Python `a or b` on optional strings: the first truthy operand
(non-None, non-empty), else `b`. -/
def pyOr (a b : Option String) : Option String :=
  match a with
  | some s => if s = "" then b else some s
  | none => b

/-- Python `if tag_value:` — drop `None` and the empty string. -/
def pyTruthyStr (a : Option String) : Option String :=
  match a with
  | some s => if s = "" then none else some s
  | none => none

/-- The metro test of `rate_house.py`: `"捷運" in network or "捷運" in operator`. -/
def metro_marker (tags : List (String × String)) : Bool :=
  pyIn "捷運" ((tagsGet tags "network").getD "") ||
    pyIn "捷運" ((tagsGet tags "operator").getD "")

/-- The national-rail test: either accepted spelling in network or operator. -/
def tra_marker (tags : List (String × String)) : Bool :=
  pyIn "臺灣鐵路" ((tagsGet tags "network").getD "") ||
    pyIn "台鐵" ((tagsGet tags "network").getD "") ||
    pyIn "臺灣鐵路" ((tagsGet tags "operator").getD "") ||
    pyIn "台鐵" ((tagsGet tags "operator").getD "")

/-- The high-speed-rail test: either accepted spelling, operator checked
before network as in the source. -/
def hsr_marker (tags : List (String × String)) : Bool :=
  pyIn "台灣高速鐵路" ((tagsGet tags "operator").getD "") ||
    pyIn "高鐵" ((tagsGet tags "operator").getD "") ||
    pyIn "台灣高速鐵路" ((tagsGet tags "network").getD "") ||
    pyIn "高鐵" ((tagsGet tags "network").getD "")

/-- The per-element classification inside `find_nearby_amenities_with_counts`
of `rate_house.py`: the `if/elif` transit chain appends at most one transit
label; a non-station element contributes the first truthy value among the
`amenity`, `shop`, `leisure`, `highway` tags, or nothing. -/
def classify_element (tags : List (String × String)) : Option String :=
  if metro_marker tags then some "mrt_station"
  else if tra_marker tags then some "tra_station"
  else if hsr_marker tags then some "hsr_station"
  else
    pyTruthyStr (pyOr (tagsGet tags "amenity")
      (pyOr (tagsGet tags "shop") (pyOr (tagsGet tags "leisure") (tagsGet tags "highway"))))

/-- Modelled from the spec: the first non-empty value among the tag keys
`amenity`, `shop`, `leisure`, `highway`, checked in this priority order. -/
def firstNonEmptyTag (tags : List (String × String)) : Option String :=
  ["amenity", "shop", "leisure", "highway"].findSome? (fun k =>
    match tagsGet tags k with
    | some v => if v = "" then none else some v
    | none => none)

lemma fallback_eq_firstNonEmptyTag (tags : List (String × String)) :
    pyTruthyStr (pyOr (tagsGet tags "amenity")
      (pyOr (tagsGet tags "shop") (pyOr (tagsGet tags "leisure") (tagsGet tags "highway")))) =
      firstNonEmptyTag tags := by
  simp only [firstNonEmptyTag, List.findSome?]
  rcases tagsGet tags "amenity" with _ | a <;>
    rcases tagsGet tags "shop" with _ | b <;>
      rcases tagsGet tags "leisure" with _ | c <;>
        rcases tagsGet tags "highway" with _ | d <;>
          simp only [pyOr, pyTruthyStr] <;> split_ifs <;> simp_all

/-- C6: the classifier assigns each raw POI tag set at most one category, by
first-match-wins order: `mrt_station` on the metro marker, else
`tra_station` on a national-rail marker, else `hsr_station` on a
high-speed-rail marker; an element matching no transit pattern takes the
first non-empty value among the `amenity`, `shop`, `leisure`, `highway`
tags in that priority order; the stated concrete examples classify as
`mrt_station`, `bank`, and nothing. -/
theorem C6_classifier (tags : List (String × String)) :
    (metro_marker tags = true → classify_element tags = some "mrt_station") ∧
    (metro_marker tags = false → tra_marker tags = true →
      classify_element tags = some "tra_station") ∧
    (metro_marker tags = false → tra_marker tags = false → hsr_marker tags = true →
      classify_element tags = some "hsr_station") ∧
    (metro_marker tags = false → tra_marker tags = false → hsr_marker tags = false →
      classify_element tags = firstNonEmptyTag tags) ∧
    classify_element [("network", "台北捷運"), ("railway", "station")] = some "mrt_station" ∧
    classify_element [("amenity", "bank")] = some "bank" ∧
    classify_element [] = none := by
  refine ⟨?_, ?_, ?_, ?_, by decide, by decide, by decide⟩
  · intro h1
    simp [classify_element, h1]
  · intro h1 h2
    simp [classify_element, h1, h2]
  · intro h1 h2 h3
    simp [classify_element, h1, h2, h3]
  · intro h1 h2 h3
    simp [classify_element, h1, h2, h3, fallback_eq_firstNonEmptyTag]

theorem C6_witness :
    classify_element [("network", "台鐵")] = some "tra_station" ∧
    classify_element [("operator", "高鐵")] = some "hsr_station" ∧
    classify_element [("shop", "convenience")] =
      firstNonEmptyTag [("shop", "convenience")] :=
  ⟨(C6_classifier [("network", "台鐵")]).2.1 (by decide) (by decide),
   (C6_classifier [("operator", "高鐵")]).2.2.1 (by decide) (by decide) (by decide),
   (C6_classifier [("shop", "convenience")]).2.2.2.1 (by decide) (by decide) (by decide)⟩

/-- `counts.get(k, 0)` on the Counter, as an association-list lookup. -/
def countsGet (counts : List (String × ℕ)) (k : String) : ℕ :=
  ((counts.find? (fun p => p.1 = k)).map Prod.snd).getD 0

/-- `check_living_function_updated` from `rate_house.py`: starts from score
0, adds 1 for each of the three transit counts that is positive, and returns
the formatted string `f"綜合評分: {score}"`. -/
def check_living_function_updated (counts : List (String × ℕ)) : String :=
  let score0 : ℕ := 0
  let score1 := if countsGet counts "mrt_station" > 0 then score0 + 1 else score0
  let score2 := if countsGet counts "tra_station" > 0 then score1 + 1 else score1
  let score3 := if countsGet counts "hsr_station" > 0 then score2 + 1 else score2
  "綜合評分: " ++ toString score3

/-- C2 counterexample: at the claim's own example counts
`{mrt_station: 2, tra_station: 0, hsr_station: 0}` the function returns the
string "綜合評分: 1" — not the integer 1 (nor its decimal rendering), so
AmenityScorer does not return a bare non-negative integer. -/
theorem C2_returns_string_counterexample :
    check_living_function_updated
        [("mrt_station", 2), ("tra_station", 0), ("hsr_station", 0)] = "綜合評分: 1" ∧
    check_living_function_updated
        [("mrt_station", 2), ("tra_station", 0), ("hsr_station", 0)] ≠ toString (1 : ℕ) := by
  constructor <;> decide

/-- C2 (amended): the scorer computes an internal score equal to the sum of
the three independent rules — +1 per transit category with positive count —
and returns the string "綜合評分: {score}" embedding that non-negative
integer; at the example counts the returned string renders the score 1. -/
theorem C2_score_amended (counts : List (String × ℕ)) :
    check_living_function_updated counts =
      "綜合評分: " ++ toString
        (((if countsGet counts "mrt_station" > 0 then 1 else 0) +
          (if countsGet counts "tra_station" > 0 then 1 else 0) +
          (if countsGet counts "hsr_station" > 0 then 1 else 0) : ℕ)) ∧
    check_living_function_updated
        [("mrt_station", 2), ("tra_station", 0), ("hsr_station", 0)] =
      "綜合評分: " ++ toString (1 : ℕ) := by
  constructor
  · unfold check_living_function_updated
    split_ifs <;> rfl
  · decide
